import Mathlib

/-!
Verification of the Lemonade Server model-lifecycle core against its
natural-language specification.  The definitions below are shallow
embeddings of the Python source files:

* `src/lemonade/tools/server/utils/port.py` (`find_free_port`)
* `src/lemonade/tools/server/llamacpp.py` (`LlamaTelemetry`, `_wait_for_load`,
  `_launch_llama_subprocess`, `server_load`, the streaming `event_stream`
  generators in `chat_completion` / `completion`)
* `src/lemonade/tools/server/flm.py` (`FlmServer`)
* `lemonade_lean/lemonade_lean/llama_wrapper.py` (`LlamaServerWrapper`)
* `lemonade_lean/lemonade_lean/hf_cache.py` (`scan_hf_cache`,
  `get_model_snapshot_path`)

Operating-system effects (sockets, subprocess liveness, HTTP responses,
the filesystem) are abstracted as explicit oracle parameters; everything
the Python functions compute from those observations is translated
faithfully, including Python truthiness (`if process.poll():` treats the
exit code 0 as false).
-/

namespace Lemonade

/-! ## PortAllocator: `find_free_port` and `LlamaTelemetry.choose_port` -/

/-- An OS socket-bind request, as issued by `find_free_port`:
`socketserver.TCPServer(("localhost", 0), None)`. -/
structure BindRequest where
  host : String
  port : Nat
deriving DecidableEq

/-- Shallow embedding of `find_free_port` (port.py): bind a TCP socket to
`("localhost", 0)` and return the OS-assigned port; any exception during the
bind yields `none`.  The OS is the oracle `os`, with `none` modelling the
exception branch (`except Exception: return None`). -/
def find_free_port (os : BindRequest → Option Nat) : Option Nat :=
  os ⟨"localhost", 0⟩

/-- Shallow embedding of `LlamaTelemetry.choose_port` (llamacpp.py): store the
port returned by `find_free_port`, or raise `HTTPException(status_code=500)`
when it returned `None`.  The raised status code is the `.error` payload. -/
def choose_port (os : BindRequest → Option Nat) : Except Nat Nat :=
  match find_free_port os with
  | none => Except.error 500
  | some p => Except.ok p

/-! ## Shutdown: `LlamaServerWrapper.stop` -/

/-- The observable subprocess-control calls issued by
`LlamaServerWrapper.stop` (llama_wrapper.py). -/
inductive StopAction where
  | terminate
  | waitWithTimeout (seconds : Nat)
  | kill
  | wait
deriving DecidableEq

/-- Shallow embedding of `LlamaServerWrapper.stop`: when a process handle
exists, call `terminate()`, then `wait(timeout=5)`; only when that wait raises
`TimeoutExpired` (`exitsWithinTimeout = false`), call `kill()` followed by a
final `wait()`.  When `self.process` is `None` nothing happens. -/
def stop (processStarted : Bool) (exitsWithinTimeout : Bool) : List StopAction :=
  if processStarted then
    [StopAction.terminate, StopAction.waitWithTimeout 5] ++
      (if exitsWithinTimeout then [] else [StopAction.kill, StopAction.wait])
  else []

/-! ## TelemetryAggregator: `LlamaTelemetry.parse_telemetry_line` -/

/-- The mutable fields of `LlamaTelemetry` (llamacpp.py `__init__`), all
initialized to `None`.  Python floats are modelled as rationals. -/
structure LlamaTelemetryState where
  input_tokens : Option Nat
  output_tokens : Option Nat
  time_to_first_token : Option ℚ
  tokens_per_second : Option ℚ
  prompt_eval_time : Option ℚ
  eval_time : Option ℚ
  port : Option Nat
deriving DecidableEq

/-- The state created by `LlamaTelemetry.__init__`: every field `None`. -/
def initialTelemetry : LlamaTelemetryState :=
  ⟨none, none, none, none, none, none, none⟩

/-- Outcome of the three `re.search` calls of `parse_telemetry_line` on one
stdout line.  `vulkan` carries the captured device count; `promptEval` and
`evalTime` carry the captures `(time_ms, tokens, tokens_per_second)`.  The
regular-expression engine is abstracted: each field is the (optional) capture
tuple of the corresponding pattern. -/
structure LineMatchResult where
  vulkan : Option Nat
  promptEval : Option (ℚ × Nat × ℚ)
  evalTime : Option (ℚ × Nat × ℚ)

/-- Shallow embedding of `LlamaTelemetry.parse_telemetry_line`: the patterns
are tried in source order (Vulkan detection, then `prompt eval time`, then
`eval time`), each match returning early.  The Vulkan branch only logs.  The
prompt branch assigns `prompt_eval_time`, `input_tokens` and
`time_to_first_token`; the eval branch assigns `eval_time`, `output_tokens`
and `tokens_per_second`; times are converted from ms to seconds. -/
def parse_telemetry_line (m : LineMatchResult) (st : LlamaTelemetryState) :
    LlamaTelemetryState :=
  match m.vulkan with
  | some _ => st
  | none =>
    match m.promptEval with
    | some (promptTimeMs, inputTokens, _) =>
      { st with
        prompt_eval_time := some (promptTimeMs / 1000)
        input_tokens := some inputTokens
        time_to_first_token := some (promptTimeMs / 1000) }
    | none =>
      match m.evalTime with
      | some (evalTimeMs, outputTokens, tps) =>
        { st with
          eval_time := some (evalTimeMs / 1000)
          output_tokens := some outputTokens
          tokens_per_second := some tps }
      | none => st

/-! ## RequestRouter streaming: the `event_stream` generators of
`chat_completion` and `completion` (llamacpp.py) -/

/-- One server-sent-event frame: `f"data: {chunk.model_dump_json()}\n\n"`. -/
def sseFrame (payload : String) : String := "data: " ++ payload ++ "\n\n"

/-- The terminator frame `"data: [DONE]\n\n"`. -/
def doneFrame : String := "data: [DONE]\n\n"

/-- The JSON body of the error frame: `{"error": "<message>"}`. -/
def errBody (e : String) : String := "\x7b\"error\": \"" ++ e ++ "\"\x7d"

/-- The error frame `f'data: {{"error": "{str(e)}"}}\n\n'` yielded by the
`except` clause of the generators. -/
def errorFrame (e : String) : String := sseFrame (errBody e)

/-- Shallow embedding of `LlamaTelemetry.show_telemetry`: returns `none` when
it completes normally and `some msg` when it raises.  It returns early when
debug logging is disabled; otherwise it builds the table rows with the
f-strings `f"{self.time_to_first_token:.2f}"` and
`f"{self.tokens_per_second:.2f}"`, which raise `TypeError` when the field is
still `None` (the format spec `.2f` is not supported by `NoneType`). -/
def show_telemetry_outcome (debugEnabled : Bool) (st : LlamaTelemetryState) :
    Option String :=
  if debugEnabled then
    match st.time_to_first_token with
    | none => some "unsupported format string passed to NoneType.__format__"
    | some _ =>
      match st.tokens_per_second with
      | none => some "unsupported format string passed to NoneType.__format__"
      | some _ => none
  else none

/-- How iterating the upstream chunk stream went: either it yielded all the
`chunks` and finished, or it yielded `chunks` and then raised an exception
with message `errMsg` (the chunks consumed before the exception). -/
inductive UpstreamRun where
  | success (chunks : List String)
  | failure (chunks : List String) (errMsg : String)

/-- Shallow embedding of the `event_stream` generator shared verbatim by
`chat_completion` and `completion` (llamacpp.py): inside a `try`, yield one
SSE frame per upstream chunk, yield the `[DONE]` terminator, then call
`telemetry.show_telemetry()`; the `except` clause catches any exception raised
so far (including one raised by `show_telemetry` after `[DONE]` was already
yielded) and yields one error frame. -/
def event_stream (run : UpstreamRun) (debugEnabled : Bool)
    (st : LlamaTelemetryState) : List String :=
  match run with
  | .failure chunks e => chunks.map sseFrame ++ [errorFrame e]
  | .success chunks =>
    chunks.map sseFrame ++ [doneFrame] ++
      (match show_telemetry_outcome debugEnabled st with
       | none => []
       | some e => [errorFrame e])

/-- Decides whether a frame sequence ends with exactly one `[DONE]`
terminator frame. -/
def endsWithOneDone (frames : List String) : Bool :=
  frames.getLast? == some doneFrame && frames.count doneFrame == 1

lemma string_data_append (x y : String) : (x ++ y).data = x.data ++ y.data := by
  cases x; cases y; rfl

lemma errBody_length (e : String) : (errBody e).length = e.length + 13 := by
  have h1 : ("\x7b\"error\": \"" : String).length = 11 := rfl
  have h2 : ("\"\x7d" : String).length = 2 := rfl
  simp [errBody, String.length_append, h1, h2]
  omega

lemma sseFrame_inj {a b : String} (h : sseFrame a = sseFrame b) : a = b := by
  have h2 := congrArg String.data h
  simp only [sseFrame, string_data_append] at h2
  have h3 := List.append_cancel_left (List.append_cancel_right h2)
  cases a; cases b
  exact congrArg String.mk h3

lemma errorFrame_ne_doneFrame (e : String) : errorFrame e ≠ doneFrame := by
  intro h
  have h2 : errBody e = "[DONE]" := sseFrame_inj h
  have h3 := congrArg String.length h2
  rw [errBody_length] at h3
  have h4 : ("[DONE]" : String).length = 6 := rfl
  omega

/-! ## Readiness waits: `_wait_for_load` (llamacpp.py, flm.py) and
`LlamaServerWrapper._wait_for_ready` (llama_wrapper.py) -/

/-- Python truthiness of `process.poll()`: `None` (process alive) and the
exit code `0` are falsy; only a nonzero exit code is truthy.  This is the
test performed by `while not llama_server_process.poll() ...` and
`if llama_server_process.poll():`. -/
def pollTruthy : Option Int → Bool
  | none => false
  | some c => c != 0

/-- Shallow embedding of `_wait_for_load` (llamacpp.py): loop
`while not process.poll() and status_code != 200`, performing one health
request per iteration (`none` models `requests.exceptions.ConnectionError`,
which leaves `status_code` unchanged; `some c` sets it) and sleeping 1 s.
The subprocess and the health endpoint are time-indexed oracles `pollAt` and
`healthAt`; iteration `t` reads `pollAt t` in the loop condition and
`healthAt t` in the body.  The source loop has no timeout; `fuel` only bounds
the observation window: `some t` means the loop exited at iteration `t`,
`none` that it was still running after `fuel` iterations. -/
def waitForLoad (pollAt healthAt : Nat → Option Int) :
    Nat → Nat → Option Int → Option Nat
  | 0, _, _ => none
  | fuel + 1, t, statusCode =>
    if pollTruthy (pollAt t) || statusCode == some 200 then some t
    else
      waitForLoad pollAt healthAt fuel (t + 1)
        (match healthAt t with
         | none => statusCode
         | some c => some c)

/-- Shallow embedding of `FlmServer._wait_for_load` (flm.py): the identical
loop shape over `GET /api/tags` instead of `/health`. -/
def flm_wait_for_load (pollAt healthAt : Nat → Option Int) :
    Nat → Nat → Option Int → Option Nat
  | 0, _, _ => none
  | fuel + 1, t, statusCode =>
    if pollTruthy (pollAt t) || statusCode == some 200 then some t
    else
      flm_wait_for_load pollAt healthAt fuel (t + 1)
        (match healthAt t with
         | none => statusCode
         | some c => some c)

/-- Result of `LlamaServerWrapper._wait_for_ready`: normal return, the
`RuntimeError` raised when the process died, or the `TimeoutError` raised
when the deadline passed. -/
inductive ReadyResult where
  | ready
  | startupFailed
  | timedOut
deriving DecidableEq

/-- Shallow embedding of `LlamaServerWrapper._wait_for_ready`
(llama_wrapper.py): each iteration first issues the health request (`some
200` returns `.ready`; any other answer or a raised exception falls
through), then checks `self.process.poll() is not None` — a correct liveness
test this time, so ANY exit code raises `RuntimeError` — then sleeps 0.5 s.
`budget` is the number of loop iterations the `time.time() - start_time <
timeout` guard admits; since every iteration sleeps 0.5 s, a timeout of `n`
seconds admits at most `2 * n` iterations, after which `TimeoutError` is
raised. -/
def waitForReady (healthAt pollAt : Nat → Option Int) :
    Nat → Nat → ReadyResult
  | 0, _ => .timedOut
  | budget + 1, t =>
    if healthAt t == some 200 then .ready
    else if (pollAt t).isSome then .startupFailed
    else waitForReady healthAt pollAt budget (t + 1)

/-- The iteration budget admitted by a timeout of `timeoutSeconds` seconds,
given the 0.5 s sleep of each iteration. -/
def readyBudget (timeoutSeconds : Nat) : Nat := 2 * timeoutSeconds

/-- The default `timeout: int = 30` of `_wait_for_ready`. -/
def defaultReadyTimeout : Nat := 30

lemma waitForLoad_stuck (p h : Nat → Option Int)
    (hp : ∀ u, pollTruthy (p u) = false) (hh : ∀ u, h u ≠ some 200) :
    ∀ fuel t s, s ≠ some 200 → waitForLoad p h fuel t s = none := by
  intro fuel
  induction fuel with
  | zero => intro t s _; rfl
  | succ n ih =>
    intro t s hs
    rw [waitForLoad]
    have hcond : (pollTruthy (p t) || s == some 200) = false := by
      simp [hp t, hs]
    rw [hcond]
    simp only [Bool.false_eq_true, if_false]
    apply ih
    cases hht : h t with
    | none => exact hs
    | some c =>
      intro hc
      exact hh t (by rw [hht]; exact hc)

lemma waitForLoad_exit_poll (p h : Nat → Option Int) :
    ∀ (n t : Nat) (s : Option Int), pollTruthy (p (t + n)) = true →
      (waitForLoad p h (n + 1) t s).isSome = true := by
  intro n
  induction n with
  | zero =>
    intro t s hpt
    rw [waitForLoad]
    simp only [Nat.add_zero] at hpt
    simp [hpt]
  | succ k ih =>
    intro t s hpt
    rw [waitForLoad]
    cases hc : (pollTruthy (p t) || s == some 200) with
    | true => simp [hc]
    | false =>
      simp only [hc, Bool.false_eq_true, if_false]
      apply ih (t + 1)
      rwa [show t + 1 + k = t + (k + 1) by omega]

lemma waitForLoad_exit_health (p h : Nat → Option Int) :
    ∀ (n t : Nat) (s : Option Int), h (t + n) = some 200 →
      (waitForLoad p h (n + 2) t s).isSome = true := by
  intro n
  induction n with
  | zero =>
    intro t s hht
    simp only [Nat.add_zero] at hht
    rw [waitForLoad]
    cases hc : (pollTruthy (p t) || s == some 200) with
    | true => simp [hc]
    | false =>
      simp only [hc, Bool.false_eq_true, if_false]
      rw [hht, waitForLoad]
      simp
  | succ k ih =>
    intro t s hht
    rw [waitForLoad]
    cases hc : (pollTruthy (p t) || s == some 200) with
    | true => simp [hc]
    | false =>
      simp only [hc, Bool.false_eq_true, if_false]
      apply ih (t + 1)
      rwa [show t + 1 + k = t + (k + 1) by omega]

lemma flm_wait_eq_waitForLoad (p h : Nat → Option Int) :
    ∀ fuel t s, flm_wait_for_load p h fuel t s = waitForLoad p h fuel t s := by
  intro fuel
  induction fuel with
  | zero => intro t s; rfl
  | succ n ih =>
    intro t s
    rw [flm_wait_for_load, waitForLoad]
    cases hc : (pollTruthy (p t) || s == some 200) with
    | true => simp [hc]
    | false => simp only [hc, Bool.false_eq_true, if_false]; apply ih

lemma waitForReady_ready (h p : Nat → Option Int) :
    ∀ (b t : Nat), waitForReady h p b t = .ready → ∃ u, h u = some 200 := by
  intro b
  induction b with
  | zero => intro t ht; exact absurd ht (by simp [waitForReady])
  | succ k ih =>
    intro t ht
    rw [waitForReady] at ht
    by_cases h200 : (h t == some 200) = true
    · exact ⟨t, by simpa using h200⟩
    · rw [Bool.not_eq_true] at h200
      rw [h200] at ht
      simp only [Bool.false_eq_true, if_false] at ht
      by_cases hps : (p t).isSome = true
      · rw [if_pos hps] at ht
        exact absurd ht (by simp)
      · rw [if_neg hps] at ht
        exact ih (t + 1) ht

lemma waitForReady_exit (h p : Nat → Option Int) (b t : Nat)
    (h200 : h t ≠ some 200) (hps : (p t).isSome = true) :
    waitForReady h p (b + 1) t = .startupFailed := by
  rw [waitForReady]
  have : (h t == some 200) = false := by simpa using h200
  rw [this]
  simp [hps]

lemma waitForReady_timeout (h p : Nat → Option Int)
    (h200 : ∀ u, h u ≠ some 200) (halive : ∀ u, p u = none) :
    ∀ b t, waitForReady h p b t = .timedOut := by
  intro b
  induction b with
  | zero => intro t; rfl
  | succ k ih =>
    intro t
    rw [waitForReady]
    have h1 : (h t == some 200) = false := by simpa using h200 t
    rw [h1]
    simp only [Bool.false_eq_true, if_false, halive t, Option.isSome_none]
    exact ih (t + 1)

/-! ## FLM adapter constants (flm.py) -/

/-- Shallow embedding of `FlmServer._choose_port`: `flm serve` does not
support port selection, so the port is the constant 11434 regardless of the
port allocator or any other input. -/
def flm_choose_port : Nat := 11434

/-- Shallow embedding of `FlmServer.address`:
`f"http://localhost:{self.port}/v1"`. -/
def flm_address (port : Nat) : String :=
  "http://localhost:" ++ toString port ++ "/v1"

/-! ## `server_load` (llamacpp.py): GPU launch with CPU fallback -/

/-- The possible outcomes of `server_load`. `loaded useGpu readyAt` is a
returned process handle (GPU or CPU launch, readiness-wait exit at iteration
`readyAt`); `raisedNoFallback` is the `Exception("llamacpp GPU loading
failed")` raised under `LEMONADE_LLAMACPP_NO_FALLBACK`; `installError` is the
HTTP 422 from a failed `install_llamacpp`; `error422` is the final HTTP 422
"Failed to load ... with llama.cpp". -/
inductive LoadResult where
  | loaded (useGpu : Bool) (readyAt : Nat)
  | raisedNoFallback
  | installError
  | error422
deriving DecidableEq

/-- Shallow embedding of `server_load` (llamacpp.py): install llama.cpp
(NotImplementedError becomes HTTP 422), launch the subprocess with GPU flags,
run `_wait_for_load`, then test `if llama_server_process.poll():` (Python
truthiness — only a NONZERO exit code triggers the branch); on a truthy poll,
raise under `LEMONADE_LLAMACPP_NO_FALLBACK` or relaunch with CPU flags and
wait again; a final truthy poll raises HTTP 422, otherwise the handle is
returned.  The GPU and CPU subprocesses and health endpoints are separate
oracles; the post-wait `poll()` re-check is modelled as reading the poll
oracle at the wait's exit iteration; `none` means the load has not produced
any outcome within `fuel` iterations of whichever wait it is in. -/
def server_load (installOk noFallback : Bool)
    (gpuPoll gpuHealth cpuPoll cpuHealth : Nat → Option Int)
    (fuel : Nat) : Option LoadResult :=
  if !installOk then some .installError
  else
    match waitForLoad gpuPoll gpuHealth fuel 0 none with
    | none => none
    | some t =>
      if pollTruthy (gpuPoll t) then
        if noFallback then some .raisedNoFallback
        else
          match waitForLoad cpuPoll cpuHealth fuel 0 none with
          | none => none
          | some t2 =>
            if pollTruthy (cpuPoll t2) then some .error422
            else some (.loaded false t2)
      else some (.loaded true t)

/-! ## Launch commands: `_launch_llama_subprocess` (llamacpp.py) and
`LlamaServerWrapper.start` (llama_wrapper.py) -/

/-- Shallow embedding of the command list built by
`_launch_llama_subprocess`: `[exe, "-m", variant]`, then `--mmproj` with
`--no-mmproj-offload` on CPU when a secondary mmproj artifact is present,
then `--port <port> --jinja`, `--reasoning-format none`, `--embeddings` /
`--reranking` when supported, and finally `-ngl 99` for GPU or `-ngl 0` for
CPU. -/
def launchCommand (exePath variantFile : String) (mmproj : Option String)
    (port : Nat) (useGpu supportsEmbeddings supportsReranking : Bool) :
    List String :=
  let baseCommand := [exePath, "-m", variantFile] ++
    (match mmproj with
     | some m => ["--mmproj", m] ++
         (if useGpu then [] else ["--no-mmproj-offload"])
     | none => [])
  let baseCommand := baseCommand ++ ["--port", toString port, "--jinja"]
  let baseCommand := baseCommand ++ ["--reasoning-format", "none"]
  let baseCommand := baseCommand ++
    (if supportsEmbeddings then ["--embeddings"] else [])
  let baseCommand := baseCommand ++
    (if supportsReranking then ["--reranking"] else [])
  baseCommand ++ ["-ngl", if useGpu then "99" else "0"]

/-- The `supports_embeddings` computation of `server_load`:
`"embeddings" in model_info.get("labels", [])`. -/
def supports_embeddings (labels : List String) : Bool :=
  labels.contains "embeddings"

/-- The `supports_reranking` computation of `server_load`:
`"reranking" in model_info.get("labels", [])`. -/
def supports_reranking (labels : List String) : Bool :=
  labels.contains "reranking"

/-- Shallow embedding of the command list built by
`LlamaServerWrapper.start` (llama_wrapper.py); the subprocess listens on
`self.llama_port = port + 1`. -/
def wrapperStartCommand (llamaServerPath resolvedPath : String)
    (ctxSize port : Nat) : List String :=
  [llamaServerPath, "-m", resolvedPath,
   "--ctx-size", toString ctxSize,
   "--port", toString (port + 1),
   "-ngl", "99",
   "--jinja"]

/-- Decides whether `flag` occurs in `cmd` immediately followed by
`value`. -/
def hasFlagArg : List String → String → String → Bool
  | a :: b :: rest, flag, value =>
    (a == flag && b == value) || hasFlagArg (b :: rest) flag value
  | _, _, _ => false

/-! ## WeightStore: `LlamaServerWrapper._resolve_model_path`
(llama_wrapper.py) -/

/-- Splits a character list at the first occurrence of `sep`, modelling
Python's `s.split(sep, 1)` when `sep` occurs (`none` when it does not). -/
def splitFirstOn (sep : Char) : List Char → Option (List Char × List Char)
  | [] => none
  | c :: rest =>
    if c = sep then some ([], rest)
    else
      match splitFirstOn sep rest with
      | some (pre, post) => some (c :: pre, post)
      | none => none

/-- Python's membership test `c in s` on strings, over the character
list. -/
def containsChar (s : String) (c : Char) : Bool := s.data.contains c

/-- Python's `model_path.split(":", 1)` combined with the `":" in
model_path` guard: returns the repo id and the optional filename part. -/
def splitColon (s : String) : String × Option String :=
  match splitFirstOn ':' s.data with
  | some (pre, post) => (⟨pre⟩, some ⟨post⟩)
  | none => (s, none)

/-- The exceptions `_resolve_model_path` can raise. `notInCache`, `noGguf`
and `fileNotFoundInRepo` are `FileNotFoundError`s (the spec's missing-weights
error); `multipleGguf` is the `ValueError` listing the candidates (the spec's
ambiguity error). -/
inductive ResolveError where
  | notInCache (repo : String)
  | fileNotFoundInRepo (repo file : String)
  | noGguf (repo : String)
  | multipleGguf (repo : String)
deriving DecidableEq

/-- The filesystem and HuggingFace-cache observations `_resolve_model_path`
makes: `os.path.exists`, `get_model_snapshot_path`, existence of
`snapshot_path / filename`, and the results of
`snapshot_path.glob("**/*.gguf")`. -/
structure FileSystem where
  pathExists : String → Bool
  snapshotPath : String → Option String
  snapshotFileExists : String → String → Bool
  ggufGlob : String → List String

/-- Shallow embedding of `LlamaServerWrapper._resolve_model_path`: an
existing path is returned unchanged; otherwise a string containing `/` is
parsed as `repo[:filename]`; a repo absent from the cache raises
`FileNotFoundError`; a nonempty filename is resolved against the snapshot
directory (raising when absent); otherwise the snapshot is globbed for
`*.gguf` files — zero raises `FileNotFoundError`, exactly one is returned,
more than one raises `ValueError`.  A string with no `/` that is not an
existing path is returned as-is (Python's trailing `return model_path`). -/
def resolve_model_path (fs : FileSystem) (modelPath : String) :
    Except ResolveError String :=
  if fs.pathExists modelPath then .ok modelPath
  else if containsChar modelPath '/' then
    match splitColon modelPath with
    | (repoId, filenameOpt) =>
      match fs.snapshotPath repoId with
      | none => .error (.notInCache repoId)
      | some snap =>
        let globBranch : Except ResolveError String :=
          match fs.ggufGlob snap with
          | [] => .error (.noGguf repoId)
          | [f] => .ok f
          | _ :: _ :: _ => .error (.multipleGguf repoId)
        match filenameOpt with
        | some f =>
          if f.isEmpty then globBranch
          else if fs.snapshotFileExists snap f then .ok (snap ++ "/" ++ f)
          else .error (.fileNotFoundInRepo repoId f)
        | none => globBranch
  else .ok modelPath

/-! ## HF cache naming: `get_model_snapshot_path` and `scan_hf_cache`
(hf_cache.py).  Python strings are modelled as character lists here. -/

/-- Python `repo_id.replace('/', '--')`: every `/` becomes `--`. -/
def replaceSlashes : List Char → List Char
  | [] => []
  | c :: rest =>
    if c = '/' then '-' :: '-' :: replaceSlashes rest
    else c :: replaceSlashes rest

/-- Shallow embedding of the cache-name construction of
`get_model_snapshot_path`: `f"models--{repo_id.replace('/', '--')}"`. -/
def cacheDirName (repoId : List Char) : List Char :=
  'm' :: 'o' :: 'd' :: 'e' :: 'l' :: 's' :: '-' :: '-' ::
    replaceSlashes repoId

/-- Python `name.startswith("models--")` followed by the slice
`name[8:]`. -/
def stripModelsDD : List Char → Option (List Char)
  | 'm' :: 'o' :: 'd' :: 'e' :: 'l' :: 's' :: '-' :: '-' :: rest =>
    some rest
  | _ => none

/-- Python `repo_name.split("--", 1)`: the parts before and after the first
occurrence of `--`, or `none` when `--` does not occur (in which case
`len(parts) == 2` fails and `scan_hf_cache` skips the entry). -/
def splitFirstDashDash : List Char → Option (List Char × List Char)
  | a :: b :: rest =>
    if a = '-' ∧ b = '-' then some ([], rest)
    else
      match splitFirstDashDash (b :: rest) with
      | some (pre, post) => some (a :: pre, post)
      | none => none
  | _ => none

/-- Shallow embedding of the per-directory decoding step of `scan_hf_cache`:
a directory whose name starts with `models--` has the prefix stripped and the
remainder split on the first `--` into `f"{parts[0]}/{parts[1]}"`; any other
name yields nothing. -/
def decodeCacheDirName (name : List Char) : Option (List Char) :=
  match stripModelsDD name with
  | none => none
  | some repoName =>
    match splitFirstDashDash repoName with
    | some (org, rest) => some (org ++ '/' :: rest)
    | none => none

/-- Shallow embedding of `scan_hf_cache` applied to the list of directory
names found in the cache directory: each directory is decoded best-effort.
The Python function finally sorts the collected ids; the sort is omitted
here, so the theorems below state membership, which sorting preserves. -/
def scan_hf_cache (dirNames : List (List Char)) : List (List Char) :=
  dirNames.filterMap decodeCacheDirName

/-- Whether the character list contains two consecutive dashes (a `--`
substring). -/
def hasDashDash : List Char → Bool
  | a :: b :: rest => (a == '-' && b == '-') || hasDashDash (b :: rest)
  | _ => false

/-- Whether the character list ends with a dash. -/
def lastIsDash : List Char → Bool
  | [] => false
  | [c] => c == '-'
  | _ :: c :: rest => lastIsDash (c :: rest)

/-- Whether the character list contains a slash. -/
def hasSlash : List Char → Bool
  | [] => false
  | c :: rest => c == '/' || hasSlash rest

lemma replaceSlashes_append (xs ys : List Char) :
    replaceSlashes (xs ++ ys) = replaceSlashes xs ++ replaceSlashes ys := by
  induction xs with
  | nil => rfl
  | cons c rest ih =>
    by_cases hc : c = '/'
    · simp [replaceSlashes, hc, ih]
    · simp [replaceSlashes, hc, ih]

lemma replaceSlashes_of_no_slash (xs : List Char)
    (h : hasSlash xs = false) : replaceSlashes xs = xs := by
  induction xs with
  | nil => rfl
  | cons c rest ih =>
    rw [hasSlash] at h
    simp only [Bool.or_eq_false_iff, beq_eq_false_iff_ne, ne_eq] at h
    simp [replaceSlashes, h.1, ih h.2]

lemma splitFirstDashDash_sep (org name : List Char)
    (hdd : hasDashDash org = false) (hl : lastIsDash org = false) :
    splitFirstDashDash (org ++ '-' :: '-' :: name) = some (org, name) := by
  induction org with
  | nil => simp [splitFirstDashDash]
  | cons c rest ih =>
    cases rest with
    | nil =>
      rw [lastIsDash] at hl
      simp only [beq_eq_false_iff_ne, ne_eq] at hl
      simp [splitFirstDashDash, hl]
    | cons c2 rest2 =>
      rw [hasDashDash] at hdd
      simp only [Bool.or_eq_false_iff, Bool.and_eq_false_iff,
        beq_eq_false_iff_ne, ne_eq] at hdd
      rw [lastIsDash] at hl
      have hrec := ih hdd.2 hl
      simp only [List.cons_append] at hrec ⊢
      rw [splitFirstDashDash]
      rw [if_neg (by
        rintro ⟨h1, h2⟩
        rcases hdd.1 with h | h
        · exact h h1
        · exact h h2)]
      rw [hrec]

/-! ## Theorems for claims C6, C7, C8 -/

/-- C6: `find_free_port` issues exactly the bind request `("localhost", 0)`
and returns the OS-assigned port; `choose_port` returns that port on success
and raises an HTTP 500 error (never proceeding with an invalid port) exactly
when no free port could be obtained. -/
theorem C6_port_allocation (os : BindRequest → Option Nat) :
    find_free_port os = os ⟨"localhost", 0⟩
    ∧ (∀ p, find_free_port os = some p → choose_port os = Except.ok p)
    ∧ (find_free_port os = none → choose_port os = Except.error 500) := by
  refine ⟨rfl, ?_, ?_⟩
  · intro p hp
    simp [choose_port, hp]
  · intro hp
    simp [choose_port, hp]

/-- C6 witness: `choose_port` at concrete oracles. -/
theorem C6_port_allocation_witness :
    choose_port (fun _ => some 5000) = Except.ok 5000
    ∧ choose_port (fun _ => none) = Except.error 500 :=
  ⟨(C6_port_allocation (fun _ => some 5000)).2.1 5000 rfl,
   (C6_port_allocation (fun _ => none)).2.2 rfl⟩

/-- C7: `stop` does nothing when no process was started; otherwise it first
sends `terminate()`, then waits at most 5 seconds, and issues `kill()` (with a
final `wait()`) exactly when that bounded wait timed out. -/
theorem C7_shutdown :
    (∀ e, stop false e = [])
    ∧ stop true true = [StopAction.terminate, StopAction.waitWithTimeout 5]
    ∧ stop true false =
        [StopAction.terminate, StopAction.waitWithTimeout 5,
         StopAction.kill, StopAction.wait]
    ∧ (∀ e, (stop true e).head? = some StopAction.terminate)
    ∧ (∀ e, StopAction.kill ∈ stop true e ↔ e = false) := by
  refine ⟨?_, rfl, rfl, ?_, ?_⟩
  · intro e; rfl
  · intro e; cases e <;> rfl
  · intro e; cases e <;> simp [stop]

/-- C8: `parse_telemetry_line` is frame-correct: a line matching none of the
three patterns (and in fact also a Vulkan match, which only logs) leaves every
telemetry field unchanged; a prompt-eval match rewrites only
`prompt_eval_time`, `input_tokens` and `time_to_first_token`; an eval match
rewrites only `eval_time`, `output_tokens` and `tokens_per_second`; `port` is
never touched. -/
theorem C8_parse_frame (m : LineMatchResult) (st : LlamaTelemetryState) :
    (parse_telemetry_line m st).port = st.port
    ∧ (m.vulkan = none → m.promptEval = none → m.evalTime = none →
        parse_telemetry_line m st = st)
    ∧ (∀ n, m.vulkan = some n → parse_telemetry_line m st = st)
    ∧ (∀ ms toks tps, m.vulkan = none → m.promptEval = some (ms, toks, tps) →
        parse_telemetry_line m st =
          { st with
            prompt_eval_time := some (ms / 1000)
            input_tokens := some toks
            time_to_first_token := some (ms / 1000) })
    ∧ (∀ ms toks tps, m.vulkan = none → m.promptEval = none →
        m.evalTime = some (ms, toks, tps) →
        parse_telemetry_line m st =
          { st with
            eval_time := some (ms / 1000)
            output_tokens := some toks
            tokens_per_second := some tps }) := by
  obtain ⟨v, p, e⟩ := m
  refine ⟨?_, ?_, ?_, ?_, ?_⟩
  · cases v <;> cases p <;> cases e <;> simp [parse_telemetry_line]
  · intro hv hp he
    simp at hv hp he
    subst hv; subst hp; subst he
    rfl
  · intro n hv
    simp at hv
    subst hv
    rfl
  · intro ms toks tps hv hp
    simp at hv hp
    subst hv; subst hp
    rfl
  · intro ms toks tps hv hp he
    simp at hv hp he
    subst hv; subst hp; subst he
    rfl

/-- C1 counterexample: a streaming request whose upstream iteration completes
without raising, with debug logging enabled and the telemetry fields still at
their initial `None` values (the state before any telemetry line was parsed):
`show_telemetry` raises while building its table, the `except` clause catches
it, and the emitted frame sequence is chunk, `[DONE]`, error frame — so it
contains a `[DONE]` frame but does not end with it, refuting "ends with
exactly one [DONE] terminator iff the upstream iteration completed without
raising". -/
theorem C1_counterexample :
    event_stream (UpstreamRun.success ["\x7b\"id\": \"c\"\x7d"]) true
        initialTelemetry =
      [sseFrame "\x7b\"id\": \"c\"\x7d", doneFrame,
       errorFrame "unsupported format string passed to NoneType.__format__"]
    ∧ endsWithOneDone
        (event_stream (UpstreamRun.success ["\x7b\"id\": \"c\"\x7d"]) true
          initialTelemetry) = false := by
  constructor
  · rfl
  · decide

/-- C1 (amended): provided no chunk serializes to the terminator frame, the
frame sequence of a streaming request ends with exactly one `[DONE]`
terminator iff the upstream iteration completed without raising AND the
post-completion `show_telemetry` call did not raise; when the upstream
iteration raises, the stream ends with an error frame and contains no
`[DONE]`; when only `show_telemetry` raises, the stream is the chunk frames,
one `[DONE]`, then a final error frame. -/
theorem C1_amended_stream_termination (chunks : List String) (e : String)
    (debugEnabled : Bool) (st : LlamaTelemetryState)
    (hchunks : doneFrame ∉ chunks.map sseFrame) :
    (endsWithOneDone (event_stream (.success chunks) debugEnabled st) = true ↔
      show_telemetry_outcome debugEnabled st = none)
    ∧ (event_stream (.failure chunks e) debugEnabled st).getLast? =
        some (errorFrame e)
    ∧ doneFrame ∉ event_stream (.failure chunks e) debugEnabled st
    ∧ (∀ m, show_telemetry_outcome debugEnabled st = some m →
        event_stream (.success chunks) debugEnabled st =
          chunks.map sseFrame ++ [doneFrame, errorFrame m]) := by
  have hcount : (chunks.map sseFrame).count doneFrame = 0 :=
    List.count_eq_zero.mpr hchunks
  refine ⟨?_, ?_, ?_, ?_⟩
  · cases h : show_telemetry_outcome debugEnabled st with
    | none =>
      simp only [event_stream, h, List.append_nil]
      simp [endsWithOneDone, List.getLast?_concat, List.count_append, hcount]
    | some m =>
      simp only [event_stream, h]
      simp [endsWithOneDone, List.getLast?_concat, errorFrame_ne_doneFrame m]
  · simp [event_stream, List.getLast?_concat]
  · simp only [event_stream, List.mem_append]
    push_neg
    exact ⟨hchunks, by
      simp [Ne.symm (errorFrame_ne_doneFrame e)]⟩
  · intro m hm
    simp [event_stream, hm]

/-- C1 witness: with debug logging disabled and one ordinary chunk, a
successful upstream iteration yields a stream ending with exactly one
`[DONE]` terminator. -/
theorem C1_amended_stream_termination_witness :
    endsWithOneDone
      (event_stream (UpstreamRun.success ["\x7b\"x\": 1\x7d"]) false
        initialTelemetry) = true :=
  (C1_amended_stream_termination ["\x7b\"x\": 1\x7d"] "err" false
    initialTelemetry (by decide)).1.mpr rfl

/-- C8 witness: a prompt-eval line with captures `(1500 ms, 7 tokens, 3 tps)`
applied to the initial state updates exactly the three prompt fields. -/
theorem C8_parse_frame_witness :
    parse_telemetry_line ⟨none, some (1500, 7, 3), none⟩ initialTelemetry =
      { initialTelemetry with
        prompt_eval_time := some (1500 / 1000)
        input_tokens := some 7
        time_to_first_token := some (1500 / 1000) } :=
  (C8_parse_frame ⟨none, some (1500, 7, 3), none⟩ initialTelemetry).2.2.2.1
    1500 7 3 rfl rfl

/-- C4 counterexample: a subprocess that has exited with code 0 while the
health endpoint keeps refusing connections does NOT end `_wait_for_load`: the
loop condition `not process.poll()` treats exit code 0 as alive, so the wait
never returns no matter how long it runs — refuting both "an exited
subprocess (any exit code, including 0) always ends the wait" and "a bounded
timeout (default 300 s) elapses" (the source loop has no timeout at all). -/
theorem C4_counterexample :
    ¬ ∃ fuel,
      (waitForLoad (fun _ => some 0) (fun _ => none) fuel 0 none).isSome =
        true := by
  rintro ⟨fuel, hf⟩
  rw [waitForLoad_stuck (fun _ => some 0) (fun _ => none)
      (fun _ => rfl) (fun _ => by simp) fuel 0 none (by simp)] at hf
  simp at hf

/-- C4 (amended): the llamacpp `_wait_for_load` returns when the subprocess
has exited with a NONZERO code or once the health endpoint has answered 200,
but it has no timeout and loops forever whenever the process stays alive (or
exited with code 0) and the health endpoint never answers 200; the
lemonade_lean `_wait_for_ready` is bounded (default timeout 30 s, not
300 s): it returns ready only if the health endpoint answered 200, raises
startup-failed as soon as the process has exited with ANY exit code, and
raises a timeout error after its iteration budget when neither happens. -/
theorem C4_amended_wait_termination :
    (∀ p h n t s, pollTruthy (p (t + n)) = true →
        (waitForLoad p h (n + 1) t s).isSome = true)
    ∧ (∀ p h n t s, h (t + n) = some 200 →
        (waitForLoad p h (n + 2) t s).isSome = true)
    ∧ (∀ p h fuel t s, (∀ u, pollTruthy (p u) = false) →
        (∀ u, h u ≠ some 200) → s ≠ some 200 →
        waitForLoad p h fuel t s = none)
    ∧ (∀ h p b t, waitForReady h p b t = .ready → ∃ u, h u = some 200)
    ∧ (∀ h p b t, h t ≠ some 200 → (p t).isSome = true →
        waitForReady h p (b + 1) t = .startupFailed)
    ∧ (∀ h p b t, (∀ u, h u ≠ some 200) → (∀ u, p u = none) →
        waitForReady h p b t = .timedOut) :=
  ⟨waitForLoad_exit_poll, waitForLoad_exit_health,
   fun p h fuel t s hp hh => waitForLoad_stuck p h hp hh fuel t s,
   waitForReady_ready,
   fun h p b t => waitForReady_exit h p b t,
   fun h p b t h200 halive => waitForReady_timeout h p h200 halive b t⟩

/-- C4 witness: a nonzero GPU exit ends `_wait_for_load` at once, and an
exited process (exit code 0 included) makes `_wait_for_ready` raise
startup-failed. -/
theorem C4_amended_wait_termination_witness :
    (waitForLoad (fun _ => some 1) (fun _ => none) 1 0 none).isSome = true
    ∧ waitForReady (fun _ => none) (fun _ => some 0) 1 0 =
        .startupFailed :=
  ⟨C4_amended_wait_termination.1 (fun _ => some 1) (fun _ => none) 0 0 none
     (by decide),
   C4_amended_wait_termination.2.2.2.2.1 (fun _ => none) (fun _ => some 0)
     0 0 (by simp) rfl⟩

/-- C3 counterexample: a GPU subprocess that exits with code 0 before
readiness (health endpoint never answers) leaves `server_load` stuck inside
`_wait_for_load` forever: the load is never retried on CPU, nothing is
raised, and no 422 is produced — refuting "if that process exits before
reaching readiness, the load is retried exactly once with CPU flags". -/
theorem C3_counterexample :
    ¬ ∃ fuel,
      (server_load true false (fun _ => some 0) (fun _ => none)
        (fun _ => none) (fun _ => none) fuel).isSome = true := by
  rintro ⟨fuel, hf⟩
  rw [server_load,
      waitForLoad_stuck (fun _ => some 0) (fun _ => none)
        (fun _ => rfl) (fun _ => by simp) fuel 0 none (by simp)] at hf
  simp at hf

/-- C3 (amended): when the GPU subprocess exits with a NONZERO code before
readiness, `server_load` raises immediately if
`LEMONADE_LLAMACPP_NO_FALLBACK` is set, and otherwise retries exactly once
with CPU flags: a CPU process that also exits with a nonzero code yields the
HTTP 422 error and no process handle, a CPU process that reaches readiness
yields a CPU handle; a GPU process that reaches readiness yields a GPU
handle with no retry; but a GPU process that exits with code 0 before
readiness hangs the load forever (no retry, no raise, no 422). -/
theorem C3_amended_gpu_cpu_fallback (c d : Int) (nf : Bool)
    (gh ch cp : Nat → Option Int) (fuel : Nat) :
    (c ≠ 0 → (∀ u, gh u ≠ some 200) →
      server_load true true (fun _ => some c) gh cp ch (fuel + 1) =
        some .raisedNoFallback)
    ∧ (c ≠ 0 → (∀ u, gh u ≠ some 200) → d ≠ 0 → (∀ u, ch u ≠ some 200) →
        server_load true false (fun _ => some c) gh (fun _ => some d) ch
          (fuel + 1) = some .error422)
    ∧ (c ≠ 0 → (∀ u, gh u ≠ some 200) → ch 0 = some 200 →
        server_load true false (fun _ => some c) gh (fun _ => none) ch
          (fuel + 2) = some (.loaded false 1))
    ∧ (gh 0 = some 200 →
        server_load true nf (fun _ => none) gh cp ch (fuel + 2) =
          some (.loaded true 1))
    ∧ ((∀ u, gh u ≠ some 200) →
        server_load true nf (fun _ => some 0) gh cp ch fuel = none) := by
  have exit0 : ∀ (e : Int) (h : Nat → Option Int) (f : Nat), e ≠ 0 →
      waitForLoad (fun _ => some e) h (f + 1) 0 none = some 0 := by
    intro e h f he
    rw [waitForLoad]
    simp [pollTruthy, he]
  have ready1 : ∀ (h : Nat → Option Int) (f : Nat), h 0 = some 200 →
      waitForLoad (fun _ => none) h (f + 2) 0 none = some 1 := by
    intro h f hh
    rw [waitForLoad]
    simp only [pollTruthy, Bool.false_or]
    rw [if_neg (by simp)]
    rw [hh, waitForLoad]
    simp [pollTruthy]
  refine ⟨?_, ?_, ?_, ?_, ?_⟩
  · intro hc _
    rw [server_load]
    simp only [Bool.not_true, Bool.false_eq_true, if_false]
    rw [exit0 c gh fuel hc]
    simp [pollTruthy, hc]
  · intro hc _ hd _
    rw [server_load]
    simp only [Bool.not_true, Bool.false_eq_true, if_false]
    rw [exit0 c gh fuel hc]
    simp only [pollTruthy, bne_iff_ne, ne_eq, hc, not_false_eq_true,
      if_true, Bool.false_eq_true, if_false]
    rw [exit0 d ch fuel hd]
    simp [pollTruthy, hd]
  · intro hc _ hready
    rw [server_load]
    simp only [Bool.not_true, Bool.false_eq_true, if_false]
    rw [show fuel + 2 = (fuel + 1) + 1 by omega, exit0 c gh (fuel + 1) hc]
    simp only [pollTruthy, bne_iff_ne, ne_eq, hc, not_false_eq_true,
      if_true, Bool.false_eq_true, if_false]
    rw [show (fuel + 1) + 1 = fuel + 2 by omega, ready1 ch fuel hready]
  · intro hready
    rw [server_load]
    simp only [Bool.not_true, Bool.false_eq_true, if_false]
    rw [ready1 gh fuel hready]
    simp [pollTruthy]
  · intro hh
    rw [server_load]
    simp only [Bool.not_true, Bool.false_eq_true, if_false]
    rw [waitForLoad_stuck (fun _ => some 0) gh (fun _ => rfl) hh fuel 0 none
        (by simp)]

/-- C3 witness: with the NO_FALLBACK flag set, a GPU process exiting with
code 1 while the health endpoint never answers makes `server_load` raise. -/
theorem C3_amended_gpu_cpu_fallback_witness :
    server_load true true (fun _ => some 1) (fun _ => none) (fun _ => none)
      (fun _ => none) 1 = some .raisedNoFallback :=
  (C3_amended_gpu_cpu_fallback 1 1 true (fun _ => none) (fun _ => none)
    (fun _ => none) 0).1 (by decide) (fun _ => by simp)

/-- C9 counterexample: an FLM subprocess that has exited with code 0 while
`/api/tags` keeps refusing connections does NOT end `FlmServer._wait_for_load`
(the loop condition `not self.process.poll()` treats exit code 0 as alive), so
the wait does not return "exactly when /api/tags answers 200 or the subprocess
exits" — an exit with code 0 never ends it. -/
theorem C9_counterexample :
    ¬ ∃ fuel,
      (flm_wait_for_load (fun _ => some 0) (fun _ => none) fuel 0
        none).isSome = true := by
  rintro ⟨fuel, hf⟩
  rw [flm_wait_eq_waitForLoad,
      waitForLoad_stuck (fun _ => some 0) (fun _ => none)
        (fun _ => rfl) (fun _ => by simp) fuel 0 none (by simp)] at hf
  simp at hf

/-- C9 (amended): the FLM adapter's port is the constant 11434 independent of
any input, its upstream base address is `http://localhost:11434/v1`, and its
readiness wait returns exactly when `GET /api/tags` answers 200 or the
subprocess exits with a NONZERO code; while the process stays alive (or has
exited with code 0) and `/api/tags` never answers 200, the wait loops
forever. -/
theorem C9_amended_flm_fixed_port :
    flm_choose_port = 11434
    ∧ flm_address flm_choose_port = "http://localhost:11434/v1"
    ∧ (∀ p h n t s, pollTruthy (p (t + n)) = true →
        (flm_wait_for_load p h (n + 1) t s).isSome = true)
    ∧ (∀ p h n t s, h (t + n) = some 200 →
        (flm_wait_for_load p h (n + 2) t s).isSome = true)
    ∧ (∀ p h fuel t s, (∀ u, pollTruthy (p u) = false) →
        (∀ u, h u ≠ some 200) → s ≠ some 200 →
        flm_wait_for_load p h fuel t s = none) := by
  refine ⟨rfl, rfl, ?_, ?_, ?_⟩
  · intro p h n t s hp
    rw [flm_wait_eq_waitForLoad]
    exact waitForLoad_exit_poll p h n t s hp
  · intro p h n t s hh
    rw [flm_wait_eq_waitForLoad]
    exact waitForLoad_exit_health p h n t s hh
  · intro p h fuel t s hp hh hs
    rw [flm_wait_eq_waitForLoad]
    exact waitForLoad_stuck p h hp hh fuel t s hs

/-- C9 witness: `/api/tags` answering 200 at the first probe ends the FLM
readiness wait. -/
theorem C9_amended_flm_fixed_port_witness :
    (flm_wait_for_load (fun _ => none) (fun _ => some 200) 2 0
      none).isSome = true :=
  C9_amended_flm_fixed_port.2.2.2.1 (fun _ => none) (fun _ => some 200)
    0 0 none rfl

/-- C5 counterexample: a concrete GPU launch command built by
`_launch_llama_subprocess` carries `-m` and `--jinja` but contains NO
`--ctx-size` flag at all — refuting "the subprocess command line contains
... `--ctx-size <n>`" for llama.cpp launches made by the server (only the
lemonade_lean wrapper passes `--ctx-size`). -/
theorem C5_counterexample :
    hasFlagArg (launchCommand "llama-server" "model.gguf" none 8080 true
        false false) "-m" "model.gguf" = true
    ∧ "--jinja" ∈ launchCommand "llama-server" "model.gguf" none 8080 true
        false false
    ∧ "--ctx-size" ∉ launchCommand "llama-server" "model.gguf" none 8080
        true false false := by
  decide

/-- C5 (amended): the `_launch_llama_subprocess` command contains
`-m <weights>`, `--port <port>` and `--jinja` but no `--ctx-size`; `-ngl` is
99 for GPU and 0 for CPU; `--embeddings` is present iff the entry's labels
include "embeddings" and `--reranking` iff they include "reranking";
`--mmproj <secondary>` is present iff a secondary mmproj artifact is given,
with `--no-mmproj-offload` added exactly on CPU launches.  The lemonade_lean
wrapper command is the one that carries `--ctx-size <n>`, along with
`-m <weights>`, `--port <port+1>`, `--jinja` and an unconditional
`-ngl 99`. -/
theorem C5_amended_launch_flags (labels : List String)
    (useGpu hasMmproj : Bool) (cmd : List String)
    (hcmd : cmd = launchCommand "llama-server" "model.gguf"
      (if hasMmproj then some "mmproj.gguf" else none) 8080 useGpu
      (supports_embeddings labels) (supports_reranking labels)) :
    hasFlagArg cmd "-m" "model.gguf" = true
    ∧ hasFlagArg cmd "--port" "8080" = true
    ∧ "--jinja" ∈ cmd
    ∧ "--ctx-size" ∉ cmd
    ∧ hasFlagArg cmd "-ngl" (if useGpu then "99" else "0") = true
    ∧ ("--embeddings" ∈ cmd ↔ supports_embeddings labels = true)
    ∧ ("--reranking" ∈ cmd ↔ supports_reranking labels = true)
    ∧ (hasFlagArg cmd "--mmproj" "mmproj.gguf" = true ↔ hasMmproj = true)
    ∧ ("--no-mmproj-offload" ∈ cmd ↔ (hasMmproj = true ∧ useGpu = false))
    ∧ hasFlagArg (wrapperStartCommand "llama-server" "model.gguf" 4096 8080)
        "--ctx-size" "4096" = true
    ∧ hasFlagArg (wrapperStartCommand "llama-server" "model.gguf" 4096 8080)
        "-m" "model.gguf" = true
    ∧ hasFlagArg (wrapperStartCommand "llama-server" "model.gguf" 4096 8080)
        "--port" "8081" = true
    ∧ "--jinja" ∈ wrapperStartCommand "llama-server" "model.gguf" 4096 8080
    ∧ hasFlagArg (wrapperStartCommand "llama-server" "model.gguf" 4096 8080)
        "-ngl" "99" = true := by
  subst hcmd
  cases h1 : supports_embeddings labels <;>
    cases h2 : supports_reranking labels <;>
    cases useGpu <;> cases hasMmproj <;>
    simp only [h1, h2] <;> decide

/-- C5 witness: a GPU launch for a model with no labels and no mmproj has no
`--ctx-size` flag. -/
theorem C5_amended_launch_flags_witness :
    "--ctx-size" ∉ launchCommand "llama-server" "model.gguf"
      (if false then some "mmproj.gguf" else none) 8080 true
      (supports_embeddings []) (supports_reranking []) :=
  (C5_amended_launch_flags [] true false _ rfl).2.2.2.1

/-- C2: weight resolution.  An existing path is returned unchanged; a repo
reference with no filename resolves to the unique globbed weight artifact of
the repo's cache snapshot, raises the ambiguity error (`ValueError`) when
several artifacts match, and raises the missing-weights error
(`FileNotFoundError`) when none match or the repo is not in the cache; a
`repo:filename` reference returns that specific file and raises when it does
not exist. -/
theorem C2_resolve_weights (fs : FileSystem) (ref : String) :
    (fs.pathExists ref = true → resolve_model_path fs ref = .ok ref)
    ∧ (fs.pathExists ref = false → containsChar ref '/' = true →
        splitColon ref = (ref, none) →
        ((fs.snapshotPath ref = none →
            resolve_model_path fs ref = .error (.notInCache ref))
         ∧ (∀ snap, fs.snapshotPath ref = some snap →
             (fs.ggufGlob snap = [] →
               resolve_model_path fs ref = .error (.noGguf ref))
             ∧ (∀ f, fs.ggufGlob snap = [f] →
                 resolve_model_path fs ref = .ok f)
             ∧ (∀ f g rest, fs.ggufGlob snap = f :: g :: rest →
                 resolve_model_path fs ref =
                   .error (.multipleGguf ref)))))
    ∧ (∀ repo file, fs.pathExists ref = false → containsChar ref '/' = true →
        splitColon ref = (repo, some file) → file.isEmpty = false →
        ((fs.snapshotPath repo = none →
            resolve_model_path fs ref = .error (.notInCache repo))
         ∧ (∀ snap, fs.snapshotPath repo = some snap →
             (fs.snapshotFileExists snap file = true →
               resolve_model_path fs ref = .ok (snap ++ "/" ++ file))
             ∧ (fs.snapshotFileExists snap file = false →
               resolve_model_path fs ref =
                 .error (.fileNotFoundInRepo repo file))))) := by
  refine ⟨?_, ?_, ?_⟩
  · intro hex
    simp [resolve_model_path, hex]
  · intro hex hslash hsplit
    constructor
    · intro hsnap
      simp [resolve_model_path, hex, hslash, hsplit, hsnap]
    · intro snap hsnap
      refine ⟨?_, ?_, ?_⟩
      · intro hglob
        simp [resolve_model_path, hex, hslash, hsplit, hsnap, hglob]
      · intro f hglob
        simp [resolve_model_path, hex, hslash, hsplit, hsnap, hglob]
      · intro f g rest hglob
        simp [resolve_model_path, hex, hslash, hsplit, hsnap, hglob]
  · intro repo file hex hslash hsplit hfile
    constructor
    · intro hsnap
      simp [resolve_model_path, hex, hslash, hsplit, hsnap]
    · intro snap hsnap
      constructor
      · intro hfex
        simp [resolve_model_path, hex, hslash, hsplit, hsnap, hfile, hfex]
      · intro hfex
        simp [resolve_model_path, hex, hslash, hsplit, hsnap, hfile, hfex]

/-- C2 witness: resolving the repo reference `org/repo` in a cache whose
snapshot holds exactly one gguf file returns that file. -/
theorem C2_resolve_weights_witness :
    resolve_model_path
      ⟨fun _ => false,
       fun r => if r = "org/repo" then some "snap" else none,
       fun _ _ => false,
       fun _ => ["snap/model.gguf"]⟩ "org/repo" =
      .ok "snap/model.gguf" :=
  ((C2_resolve_weights
      ⟨fun _ => false,
       fun r => if r = "org/repo" then some "snap" else none,
       fun _ _ => false,
       fun _ => ["snap/model.gguf"]⟩ "org/repo").2.1 rfl (by decide)
      rfl).2 "snap" (by decide) |>.2.1 "snap/model.gguf" rfl

/-- C10 counterexample: the repo id with org part `a-` and name part `b`
(org contains no `--` substring) is encoded as `models--a---b`; decoding
splits `a---b` on the FIRST `--`, yielding the different id with org `a` and
name `-b`, so scanning a cache holding that directory does NOT yield the
original id — refuting the round trip for every org with no `--` substring
(an org that merely ends in a dash already breaks it). -/
theorem C10_counterexample :
    hasDashDash "a-".data = false
    ∧ cacheDirName "a-/b".data = "models--a---b".data
    ∧ scan_hf_cache [cacheDirName "a-/b".data] = ["a/-b".data]
    ∧ "a-/b".data ∉ scan_hf_cache [cacheDirName "a-/b".data] := by
  decide

/-- C10 (amended): the naming is a round trip for every repo id `org/name`
whose components contain no `/`, and whose org part contains no `--`
substring AND does not end in `-`: scanning a cache that holds the repo's
encoded directory yields the original id. -/
theorem C10_amended_cache_roundtrip (org name : List Char)
    (dirs : List (List Char))
    (hdd : hasDashDash org = false) (hl : lastIsDash org = false)
    (hso : hasSlash org = false) (hsn : hasSlash name = false)
    (hmem : cacheDirName (org ++ '/' :: name) ∈ dirs) :
    (org ++ '/' :: name) ∈ scan_hf_cache dirs := by
  have hdecode :
      decodeCacheDirName (cacheDirName (org ++ '/' :: name)) =
        some (org ++ '/' :: name) := by
    have hrepl : replaceSlashes (org ++ '/' :: name) =
        org ++ '-' :: '-' :: name := by
      rw [replaceSlashes_append, replaceSlashes_of_no_slash org hso]
      rw [replaceSlashes]
      rw [if_pos rfl, replaceSlashes_of_no_slash name hsn]
    have h2 : splitFirstDashDash (org ++ '-' :: '-' :: name) =
        some (org, name) := splitFirstDashDash_sep org name hdd hl
    rw [cacheDirName, hrepl]
    simp [decodeCacheDirName, stripModelsDD, h2]
  exact List.mem_filterMap.mpr ⟨_, hmem, hdecode⟩

/-- C10 witness: the ordinary repo id `ab/cd` survives the round trip. -/
theorem C10_amended_cache_roundtrip_witness :
    ("ab".data ++ '/' :: "cd".data) ∈
      scan_hf_cache [cacheDirName ("ab".data ++ '/' :: "cd".data)] :=
  C10_amended_cache_roundtrip "ab".data "cd".data
    [cacheDirName ("ab".data ++ '/' :: "cd".data)]
    (by decide) (by decide) (by decide) (by decide) (by decide)

end Lemonade
